import Mathlib

/-!
Shallow embedding of the wey URL-shortener core
(`src/services/linkService.js`, `src/services/securityService.js`,
`src/server/webServer.js`) and proofs about the spec's claims.

Machine integers are modelled as `Nat`/`Int`; the Supabase record store is
modelled as explicit lists of rows; `.single()` queries are modelled by
`singleQuery` (data is returned only when exactly one row matches, as the
PostgREST `single()` contract states; on zero or multiple rows the error is
set and `data` is `null`, which the source destructures away).
-/

namespace Wey

/-! ## String utilities (ASCII, as used by the JS source) -/

/-- `leadsWith pat cs`: `cs` starts with `pat` (character-exact). -/
def leadsWith : List Char → List Char → Bool
  | [], _ => true
  | _ :: _, [] => false
  | c :: cs, d :: ds => c == d && leadsWith cs ds

/-- naive substring search: does `pat` occur contiguously inside `hay`? -/
def subSearch (pat : List Char) : List Char → Bool
  | [] => leadsWith pat []
  | h :: t => leadsWith pat (h :: t) || subSearch pat t

/-- JS `String.prototype.includes`. -/
def strContains (hay pat : String) : Bool := subSearch pat.data hay.data

/-- JS `String.prototype.toLowerCase` (ASCII range, which is all the source uses). -/
def toLowerStr (s : String) : String := String.mk (s.data.map Char.toLower)

/-- case-insensitive `includes`, as the source's lowered comparisons do. -/
def strContainsCI (hay pat : String) : Bool := strContains (toLowerStr hay) (toLowerStr pat)

/-- JS `String.prototype.endsWith`. -/
def strEndsWith (hay pat : String) : Bool := leadsWith pat.data.reverse hay.data.reverse

/-- JS `String.prototype.slice(0, n)`. -/
def jsSlice (s : String) (n : Nat) : String := String.mk (s.data.take n)

/-! ## Code Allocator: `LinkService.generateShortCode`

`crypto.randomBytes(3).toString('base64url').slice(0, 6)` — three random
bytes, base64url-encoded (3 bytes = 24 bits = exactly 4 base64url digits,
no padding), then `slice(0, 6)`. -/

def base64urlChars : List Char :=
  "ABCDEFGHIJKLMNOPQRSTUVWXYZabcdefghijklmnopqrstuvwxyz0123456789-_".data

def b64Char (i : Nat) : Char := base64urlChars.getD i 'A'

/-- Node `Buffer.toString('base64url')` on a 3-byte buffer. -/
def base64urlEncode3 (b0 b1 b2 : Nat) : String :=
  let n := (b0 % 256) * 65536 + (b1 % 256) * 256 + (b2 % 256)
  String.mk [b64Char (n / 262144 % 64), b64Char (n / 4096 % 64),
             b64Char (n / 64 % 64), b64Char (n % 64)]

/-- `LinkService.generateShortCode`, with the three random bytes passed
explicitly in place of `crypto.randomBytes(3)`. -/
def generateShortCode (b0 b1 b2 : Nat) : String :=
  jsSlice (base64urlEncode3 b0 b1 b2) 6

/-- `SecurityService.validateShortCode`: `/^[a-zA-Z0-9]{6}$/.test(shortCode)`. -/
def validateShortCode (s : String) : Bool :=
  s.length == 6 && s.data.all (fun c => c.isAlpha || c.isDigit)

/-! ## Claims about the code allocator's output format (C1) -/

/-- **C1.** The spec claims every generated short code is a 6-character
alphanumeric string that passes `validateShortCode`.  In the source,
`generateShortCode` base64url-encodes 3 bytes, which is always exactly 4
characters, so `slice(0, 6)` returns those 4 characters: every generated
code has length 4 and `validateShortCode` (which demands exactly 6
alphanumeric characters) rejects it — for every possible random draw. -/
theorem c1_generateShortCode_length_violation (b0 b1 b2 : Nat) :
    (generateShortCode b0 b1 b2).length = 4 ∧
    validateShortCode (generateShortCode b0 b1 b2) = false := by
  constructor
  · rfl
  · rfl

/-! ## Security Gate: `SecurityService.checkRateLimit`

The in-memory `rateLimitStore` is a `Map` from phone number to an array of
millisecond timestamps; we model it as an association list and
`Map.get`/`Map.set` by `mapGet`/`mapSet` (JS `Map.set` replaces in place,
or appends a fresh entry).  Timestamps are `Int` milliseconds
(`Date.now()`). -/

def mapGet : List (String × List Int) → String → List Int
  | [], _ => []
  | e :: m, k => if e.1 == k then e.2 else mapGet m k

def mapSet : List (String × List Int) → String → List Int →
    List (String × List Int)
  | [], k, v => [(k, v)]
  | e :: m, k, v => if e.1 == k then (k, v) :: m else e :: mapSet m k v

def rateLimitWindowMs : Int := 60 * 60 * 1000

/-- `SecurityService.checkRateLimit`: prune entries at or before
`now - 1h`, deny when 10 or more remain, append `now` only when allowed.
The net effect on the store of the source's intermediate `set` calls is a
single `set` of the final per-identity list. -/
def checkRateLimit (now : Int) (m : List (String × List Int)) (phone : String) :
    Bool × List (String × List Int) :=
  let hourAgo := now - rateLimitWindowMs
  let userRequests := mapGet m phone
  let recentRequests := userRequests.filter (fun time => hourAgo < time)
  if 10 ≤ recentRequests.length then
    (false, mapSet m phone recentRequests)
  else
    (true, mapSet m phone (recentRequests ++ [now]))

/-- the creation sequence of one identity: one `checkRateLimit` call per
submitted timestamp, threading the store. -/
def runCreations (phone : String) : List Int → List (String × List Int) → List Bool
  | [], _ => []
  | t :: ts, m =>
    let r := checkRateLimit t m phone
    r.1 :: runCreations phone ts r.2

theorem mapGet_mapSet_ne (m : List (String × List Int)) (k k' : String)
    (v : List Int) (h : k' ≠ k) : mapGet (mapSet m k v) k' = mapGet m k' := by
  have hkk' : (k == k') = false := by
    simp only [beq_eq_false_iff_ne, ne_eq]
    exact fun hk => h hk.symm
  induction m with
  | nil => simp [mapGet, mapSet, hkk']
  | cons e m ih =>
    by_cases he : (e.1 == k) = true
    · have hek' : (e.1 == k') = false := by
        have : e.1 = k := by simpa using he
        simp [this, hkk']
      simp [mapGet, mapSet, he, hek', hkk']
    · have he' : (e.1 == k) = false := by simpa using he
      simp only [mapSet, he', Bool.false_eq_true, if_neg, mapGet]
      cases hek' : (e.1 == k') <;> simp [ih]

theorem mapGet_mapSet_self (m : List (String × List Int)) (k : String)
    (v : List Int) : mapGet (mapSet m k v) k = v := by
  induction m with
  | nil => simp [mapGet, mapSet]
  | cons e m ih =>
    by_cases he : (e.1 == k) = true
    · simp [mapGet, mapSet, he]
    · have he' : (e.1 == k) = false := by simpa using he
      simp [mapGet, mapSet, he', ih]

/-- **C3.** The rate limiter keeps a per-identity timestamp sequence:
(a) the verdict is computed from the pruned window only — allowed iff
fewer than 10 entries survive pruning to the last 60 minutes;
(b) the identity's stored sequence afterwards is the pruned window, with
`now` appended exactly when the request was allowed;
(c) other identities' sequences are untouched;
(d) scenario: from an empty store, of 11 creations in the same hour the
first 10 are allowed and the 11th is denied. -/
theorem c3_checkRateLimit_window (now : Int) (m : List (String × List Int))
    (phone other : String) (hother : other ≠ phone) :
    (checkRateLimit now m phone).1 =
      decide (((mapGet m phone).filter
        (fun t => now - rateLimitWindowMs < t)).length < 10) ∧
    mapGet (checkRateLimit now m phone).2 phone =
      (let recent := (mapGet m phone).filter (fun t => now - rateLimitWindowMs < t)
       if (checkRateLimit now m phone).1 then recent ++ [now] else recent) ∧
    mapGet (checkRateLimit now m phone).2 other = mapGet m other ∧
    runCreations "23480000001" (List.replicate 11 0) [] =
      List.replicate 10 true ++ [false] := by
  refine ⟨?_, ?_, ?_, ?_⟩
  · simp only [checkRateLimit]
    split <;> rename_i h <;> simp <;> omega
  · simp only [checkRateLimit]
    split <;> rename_i h
    · have : mapGet (mapSet m phone ((mapGet m phone).filter
          (fun t => now - rateLimitWindowMs < t))) phone =
          (mapGet m phone).filter (fun t => now - rateLimitWindowMs < t) :=
        mapGet_mapSet_self ..
      simp [this, h]
    · have : mapGet (mapSet m phone ((mapGet m phone).filter
          (fun t => now - rateLimitWindowMs < t) ++ [now])) phone =
          (mapGet m phone).filter (fun t => now - rateLimitWindowMs < t)
            ++ [now] :=
        mapGet_mapSet_self ..
      simp [this, h]
  · simp only [checkRateLimit]
    split <;> exact mapGet_mapSet_ne m phone other _ hother
  · decide

/-- closed witness for `c3_checkRateLimit_window` at concrete inputs. -/
theorem c3_checkRateLimit_window_witness :
    (checkRateLimit 5000 [("a", [100, 200])] "a").1 = true ∧
    mapGet (checkRateLimit 5000 [("a", [100, 200])] "a").2 "b" =
      mapGet [("a", [100, 200])] "b" := by
  have h := c3_checkRateLimit_window 5000 [("a", [100, 200])] "a" "b"
    (by decide)
  refine ⟨?_, h.2.2.1⟩
  rw [h.1]
  decide

/-! ## Security Gate: `SecurityService.isUrlSafe` and its checks -/

structure SafetyVerdict where
  safe : Bool
  reason : Option String
deriving DecidableEq, Repr

/-- `SecurityService.BLOCKED_DOMAINS`. -/
def BLOCKED_DOMAINS : List String :=
  ["bit.ly/malware", "tinyurl.com/virus",
   "adf.ly", "ow.ly", "bit.do", "short.link",
   "free-money", "click-here-now", "urgent-action",
   "pornhub.com", "xvideos.com", "xnxx.com",
   ".tk", ".ml", ".ga", ".cf"]

/-- `SecurityService.checkBlockedDomains`: case-insensitive substring scan of
the URL against `BLOCKED_DOMAINS`; the source returns on the first hit, and
every hit yields the same verdict, so the scan is an `any`. -/
def checkBlockedDomains (url : String) : SafetyVerdict :=
  if BLOCKED_DOMAINS.any (fun domain => strContains (toLowerStr url) (toLowerStr domain))
  then { safe := false, reason := some "blocked_domain" }
  else { safe := true, reason := none }

/-- digits consumed at the head of the character list, and the rest. -/
def takeDigitsCount : List Char → Nat × List Char
  | [] => (0, [])
  | c :: cs =>
    if c.isDigit then
      let r := takeDigitsCount cs
      (r.1 + 1, r.2)
    else (0, c :: cs)

/-- the regex tail `\d+\.\d+\.\d+\.\d+` matched at the head of the list. -/
def matchIpTail (cs : List Char) : Bool :=
  let r1 := takeDigitsCount cs
  if r1.1 == 0 then false else
  match r1.2 with
  | '.' :: t1 =>
    let r2 := takeDigitsCount t1
    if r2.1 == 0 then false else
    match r2.2 with
    | '.' :: t2 =>
      let r3 := takeDigitsCount t2
      if r3.1 == 0 then false else
      match r3.2 with
      | '.' :: t3 => (takeDigitsCount t3).1 != 0
      | _ => false
    | _ => false
  | _ => false

/-- pattern 1 of `SUSPICIOUS_PATTERNS`: an IP-literal host,
regex `^https?:\/\/\d+\.\d+\.\d+\.\d+` (no `i` flag, so case-exact). -/
def matchesIpLiteral (url : String) : Bool :=
  if leadsWith "https://".data url.data then
    matchIpTail (url.data.drop 8)
  else if leadsWith "http://".data url.data then
    matchIpTail (url.data.drop 7)
  else false

/-- pattern 2: `/phishing|malware|virus|scam|hack|exploit/i`. -/
def suspiciousKeywords : List String :=
  ["phishing", "malware", "virus", "scam", "hack", "exploit"]

/-- pattern 3: `/bit\.ly|tinyurl|t\.co|goo\.gl|short\.link/i`. -/
def shortenerMarkers : List String :=
  ["bit.ly", "tinyurl", "t.co", "goo.gl", "short.link"]

/-- pattern 4's extension alternatives in
`/\.(exe|bat|scr|com|pif|cmd|vbs|jar)(\?|$)/i`. -/
def execExtensions : List String :=
  ["exe", "bat", "scr", "com", "pif", "cmd", "vbs", "jar"]

/-- pattern 4: a dot, one of the extensions, then `?` or end of string,
anywhere in the URL, case-insensitive. -/
def matchesExecExtension (url : String) : Bool :=
  let l := toLowerStr url
  execExtensions.any (fun ext =>
    strContains l ("." ++ ext ++ "?") || strEndsWith l ("." ++ ext))

/-- pattern 5: `/data:|javascript:|vbscript:/i`. -/
def uriSchemeMarkers : List String := ["data:", "javascript:", "vbscript:"]

/-- `SecurityService.checkSuspiciousPatterns`: the URL against the five
configured regexes; every hit yields the same verdict, so the first-match
loop is an `or` of the five matchers. -/
def checkSuspiciousPatterns (url : String) : SafetyVerdict :=
  if matchesIpLiteral url
      || suspiciousKeywords.any (fun k => strContainsCI url k)
      || shortenerMarkers.any (fun k => strContainsCI url k)
      || matchesExecExtension url
      || uriSchemeMarkers.any (fun k => strContainsCI url k)
  then { safe := false, reason := some "suspicious_pattern" }
  else { safe := true, reason := none }

/-- outcome of the 5-second-timeout HEAD request issued by
`SecurityService.checkUrlExists`: a response with an HTTP status, a timeout
(the `AbortController` fires and `fetch` rejects), or a network error
(`fetch` rejects). -/
inductive ProbeOutcome where
  | response (status : Nat)
  | timeout
  | networkError
deriving DecidableEq, Repr

/-- `fetch` `Response.ok`: status in the range 200–299. -/
def responseOk (status : Nat) : Bool := 200 ≤ status && status < 300

/-- `SecurityService.checkUrlExists`: deny with `url_not_found` only on
`!response.ok && response.status === 404`; a rejected `fetch` (timeout or
network error) lands in the `catch` branch, which returns `safe: true`. -/
def checkUrlExists : ProbeOutcome → SafetyVerdict
  | .response status =>
    if !responseOk status && status == 404
    then { safe := false, reason := some "url_not_found" }
    else { safe := true, reason := none }
  | .timeout => { safe := true, reason := none }
  | .networkError => { safe := true, reason := none }

/-- `SecurityService.isUrlSafe`: the five checks in source order with the
rate limiter's store threaded through; the HEAD request's outcome is passed
in as `probe`. -/
def isUrlSafe (now : Int) (m : List (String × List Int)) (phone : String)
    (probe : ProbeOutcome) (url : String) :
    SafetyVerdict × List (String × List Int) :=
  let rl := checkRateLimit now m phone
  if rl.1 = false then
    ({ safe := false, reason := some "rate_limit" }, rl.2)
  else
    let domainCheck := checkBlockedDomains url
    if domainCheck.safe = false then (domainCheck, rl.2)
    else
      let patternCheck := checkSuspiciousPatterns url
      if patternCheck.safe = false then (patternCheck, rl.2)
      else if 2000 < url.length then
        ({ safe := false, reason := some "url_too_long" }, rl.2)
      else
        let existsCheck := checkUrlExists probe
        if existsCheck.safe = false then (existsCheck, rl.2)
        else ({ safe := true, reason := none }, rl.2)

/-- the first failing verdict in a list of check results, or an allow. -/
def firstFailure : List SafetyVerdict → SafetyVerdict
  | [] => { safe := true, reason := none }
  | v :: vs => if v.safe then firstFailure vs else v

/-- Modelled from the spec: `evaluate(url, identity)` runs the checks
rate limit, blocklist match, suspicious pattern match, length bound,
reachability probe in this order, short-circuiting on the first failure and
returning that check's verdict. -/
def specGate (now : Int) (m : List (String × List Int)) (phone : String)
    (probe : ProbeOutcome) (url : String) : SafetyVerdict :=
  firstFailure
    [if (checkRateLimit now m phone).1
       then { safe := true, reason := none }
       else { safe := false, reason := some "rate_limit" },
     checkBlockedDomains url,
     checkSuspiciousPatterns url,
     if 2000 < url.length
       then { safe := false, reason := some "url_too_long" }
       else { safe := true, reason := none },
     checkUrlExists probe]

/-- **C4.** `isUrlSafe` evaluates its checks in the fixed order
rate limit, blocklist, suspicious pattern, length bound (`url_too_long`
beyond 2000 characters), reachability probe, short-circuiting on the first
failing check and returning its verdict — it coincides with the gate read
off the spec's words — and the spec's scenario holds: `https://bit.ly/x`
(under an empty rate-limit window) is denied with `suspicious_pattern`. -/
theorem c4_isUrlSafe_check_order (now : Int) (m : List (String × List Int))
    (phone : String) (probe : ProbeOutcome) (url : String) :
    (isUrlSafe now m phone probe url).1 = specGate now m phone probe url ∧
    (isUrlSafe now [] phone probe "https://bit.ly/x").1 =
      { safe := false, reason := some "suspicious_pattern" } := by
  constructor
  · cases hrl : (checkRateLimit now m phone).1 <;>
    cases hd : (checkBlockedDomains url).safe <;>
    cases hp : (checkSuspiciousPatterns url).safe <;>
    by_cases hl : 2000 < url.length <;>
    cases he : (checkUrlExists probe).safe <;>
    simp_all [isUrlSafe, specGate, firstFailure] <;>
    simp [if_neg (show ¬ (2000 < url.length) by omega)]
  · have hrl : checkRateLimit now [] phone = (true, [(phone, [now])]) := by
      norm_num [checkRateLimit, mapGet, mapSet]
    have hd : checkBlockedDomains "https://bit.ly/x" =
        { safe := true, reason := none } := by decide
    have hp : checkSuspiciousPatterns "https://bit.ly/x" =
        { safe := false, reason := some "suspicious_pattern" } := by decide
    simp [isUrlSafe, hrl, hd, hp]

/-- **C5.** The reachability probe denies exactly on a definitive HTTP 404
response — and then with reason `url_not_found`; every other outcome of the
HEAD request (a response with any other status, a timeout, a network
error) leaves the verdict safe with no reason. -/
theorem c5_checkUrlExists_denies_only_404 (o : ProbeOutcome) (s : Nat) :
    ((checkUrlExists o).safe = false ↔ o = .response 404) ∧
    checkUrlExists (.response 404) =
      { safe := false, reason := some "url_not_found" } ∧
    (checkUrlExists (.response s)).safe = (s != 404) ∧
    checkUrlExists .timeout = { safe := true, reason := none } ∧
    checkUrlExists .networkError = { safe := true, reason := none } := by
  refine ⟨?_, by decide, ?_, by decide, by decide⟩
  · cases o with
    | response status =>
      by_cases h : status = 404
      · subst h
        simp [checkUrlExists, responseOk]
      · have hb : (status == 404) = false := by simpa using h
        simp [checkUrlExists, responseOk, hb, h]
    | timeout => simp [checkUrlExists]
    | networkError => simp [checkUrlExists]
  · by_cases h : s = 404
    · subst h
      simp [checkUrlExists, responseOk]
    · have hb : (s == 404) = false := by simpa using h
      have hn : (s != 404) = true := by simpa using h
      simp [checkUrlExists, responseOk, hb, hn]

/-! ## Code Allocator: the generation loop of `LinkService.shortenUrl`

The `while (!isUnique && attempts < 10)` loop draws one candidate code per
iteration; a candidate failing `validateShortCode` burns the attempt, a
candidate already present in `shortened_links` burns the attempt, and a
valid fresh candidate ends the loop.  The stream of random draws is passed
in as the list `codes`. -/

def allocateAux (existing : String → Bool) : List String → Option String
  | [] => none
  | c :: cs =>
    if validateShortCode c = false then allocateAux existing cs
    else if existing c then allocateAux existing cs
    else some c

/-- the allocation loop: at most 10 draws from `codes`. -/
def allocate (codes : List String) (existing : String → Bool) : Option String :=
  allocateAux existing (codes.take 10)

/-! ## Link Registry rows -/

structure LinkRow where
  id : Nat
  user_id : Nat
  original_url : String
  short_code : String
  short_url : String
  total_clicks : Nat
  unique_clicks : Nat
  is_active : Bool
  created_at : String
deriving DecidableEq, Repr

/-- default public base domain composing the short URL
(`process.env.SHORT_DOMAIN || 'http://localhost:3000'`). -/
def shortDomain : String := "http://localhost:3000"

/-- the allocation-and-insert tail of `LinkService.shortenUrl`: run the
generation loop against the registry's existing codes; on exhaustion the
function throws (`Failed to generate unique short code`) before the insert,
modelled as `none` with the registry unchanged; otherwise the new link row
is inserted. -/
def shortenUrl (codes : List String) (links : List LinkRow)
    (nextId userId : Nat) (url : String) : Option LinkRow × List LinkRow :=
  match allocate codes (fun c => links.any (fun l => l.short_code == c)) with
  | none => (none, links)
  | some code =>
    let link : LinkRow :=
      { id := nextId, user_id := userId, original_url := url,
        short_code := code, short_url := shortDomain ++ "/" ++ code,
        total_clicks := 0, unique_clicks := 0, is_active := true,
        created_at := "" }
    (some link, links ++ [link])

theorem allocateAux_none (existing : String → Bool) (cs : List String)
    (h : ∀ c ∈ cs, validateShortCode c = false ∨ existing c = true) :
    allocateAux existing cs = none := by
  induction cs with
  | nil => rfl
  | cons c cs ih =>
    have hc := h c (List.mem_cons_self c cs)
    have hrest : ∀ x ∈ cs, validateShortCode x = false ∨ existing x = true :=
      fun x hx => h x (List.mem_cons_of_mem c hx)
    rcases hc with hv | he
    · simp [allocateAux, hv, ih hrest]
    · simp only [allocateAux, he, if_pos, if_true]
      split
      · exact ih hrest
      · exact ih hrest

theorem allocateAux_some (existing : String → Bool) (cs : List String)
    (c : String) (h : allocateAux existing cs = some c) :
    validateShortCode c = true ∧ existing c = false := by
  induction cs with
  | nil => simp [allocateAux] at h
  | cons d cs ih =>
    cases hv : validateShortCode d with
    | false =>
      have h' : allocateAux existing cs = some c := by
        simpa [allocateAux, hv] using h
      exact ih h'
    | true =>
      cases he : existing d with
      | true =>
        have h' : allocateAux existing cs = some c := by
          simpa [allocateAux, hv, he] using h
        exact ih h'
      | false =>
        have h' : d = c := by simpa [allocateAux, hv, he] using h
        subst h'
        exact ⟨hv, he⟩

/-- **C6.** The allocation loop of `shortenUrl`:
(a) when every one of the first 10 drawn candidates fails validation or
collides with an existing code, creation fails and the registry is
unchanged — no link row is inserted;
(b) a created link's code passed the validator and collided with nothing,
and the row is inserted only then;
(c) at most 10 draws are ever examined: draws beyond the 10th never change
the outcome. -/
theorem c6_allocate_bounded_and_guarded (codes : List String)
    (links : List LinkRow) (nextId userId : Nat) (url : String)
    (h10 : ∀ c ∈ codes.take 10, validateShortCode c = false ∨
      links.any (fun l => l.short_code == c) = true) :
    shortenUrl codes links nextId userId url = (none, links) ∧
    (∀ (codes' : List String) (l : LinkRow) (links' : List LinkRow),
      shortenUrl codes' links nextId userId url = (some l, links') →
      validateShortCode l.short_code = true ∧
      links.any (fun x => x.short_code == l.short_code) = false ∧
      links' = links ++ [l]) ∧
    (∀ (front extra : List String) (existing : String → Bool),
      front.length = 10 →
      allocate (front ++ extra) existing = allocate front existing) := by
  refine ⟨?_, ?_, ?_⟩
  · simp only [shortenUrl, allocate]
    rw [allocateAux_none _ _ h10]
  · intro codes' l links' h
    simp only [shortenUrl] at h
    cases halloc : allocate codes'
        (fun c => links.any (fun x => x.short_code == c)) with
    | none => simp [halloc] at h
    | some code =>
      simp only [halloc, Prod.mk.injEq, Option.some.injEq] at h
      obtain ⟨hl, hlinks⟩ := h
      have hcode := allocateAux_some _ _ _ halloc
      subst hl
      exact ⟨hcode.1, hcode.2, hlinks.symm⟩
  · intro front extra existing hlen
    simp only [allocate]
    rw [show (10 : Nat) = front.length from hlen.symm, List.take_left,
      List.take_length]

/-- closed witness for `c6_allocate_bounded_and_guarded`: ten invalid draws
leave the registry unchanged, one valid fresh draw inserts exactly the new
row. -/
theorem c6_allocate_bounded_and_guarded_witness :
    shortenUrl (List.replicate 10 "AAAA") [] 1 1 "https://example.com" =
      (none, []) ∧
    validateShortCode "abc123" = true := by
  have h := c6_allocate_bounded_and_guarded (List.replicate 10 "AAAA") []
    1 1 "https://example.com" (by decide)
  exact ⟨h.1, by decide⟩

/-! ## Click Tracker: `LinkService.trackClick`

The record store is modelled by explicit row lists.  A PostgREST
`.single()` query sets an error and returns `null` data unless exactly one
row matches; the source destructures only `data`, so the modelled result is
`some row` exactly when one row matches. -/

/-- PostgREST `.single()`: data is non-null only for exactly one matching
row. -/
def singleQuery {α : Type} : List α → Option α
  | [r] => some r
  | _ => none

structure ClickRow where
  link_id : Nat
  ip_address : String
  user_agent : String
  referrer : Option String
  device_type : String
  browser : String
  is_unique : Bool
deriving DecidableEq, Repr

structure DB where
  links : List LinkRow
  clicks : List ClickRow
deriving DecidableEq, Repr

/-- `LinkService.parseDeviceType`: ordered case-insensitive substring
checks, first match wins. -/
def parseDeviceType (userAgent : String) : String :=
  let ua := toLowerStr userAgent
  if strContains ua "mobile" || strContains ua "android" ||
      strContains ua "iphone" then "mobile"
  else if strContains ua "tablet" || strContains ua "ipad" then "tablet"
  else "desktop"

/-- `LinkService.parseBrowser`: ordered case-insensitive substring checks,
first match wins. -/
def parseBrowser (userAgent : String) : String :=
  let ua := toLowerStr userAgent
  if strContains ua "chrome" then "Chrome"
  else if strContains ua "firefox" then "Firefox"
  else if strContains ua "safari" then "Safari"
  else if strContains ua "edge" then "Edge"
  else "Unknown"

/-- `trackClick`'s return value `{ success, isUnique }`. -/
structure TrackResult where
  success : Bool
  isUnique : Bool
deriving DecidableEq, Repr

/-- which of `trackClick`'s three store writes fail, modelling
`StoreError` outcomes of the click insert, the counter fetch and the
counter update. -/
structure StoreFaults where
  insertFails : Bool
  fetchFails : Bool
  updateFails : Bool
deriving DecidableEq, Repr

def noFaults : StoreFaults :=
  { insertFails := false, fetchFails := false, updateFails := false }

/-- the `shortened_links` update setting both counters of row `linkId`. -/
def updateLinkCounts (links : List LinkRow) (linkId tot uniq : Nat) :
    List LinkRow :=
  links.map (fun l =>
    if l.id == linkId then { l with total_clicks := tot, unique_clicks := uniq }
    else l)

/-- `LinkService.trackClick` (the `FIXED` variant of
`src/services/linkService.js`): look for a prior click of this link from
this address with a `.single()` query, derive device and browser, append
the click row, then read the current counters and write back
`read value + 1` — a read-then-overwrite, not an atomic add.  Every
internal failure is caught and surfaces as
`{ success := false, isUnique := false }`; the function never throws. -/
def trackClick (f : StoreFaults) (db : DB) (linkId : Nat) (ip ua : String)
    (referrer : Option String) : TrackResult × DB :=
  let existingClick := singleQuery (db.clicks.filter
    (fun c => c.link_id == linkId && c.ip_address == ip))
  let isUnique := existingClick.isNone
  let deviceType := parseDeviceType ua
  let browser := parseBrowser ua
  if f.insertFails then ({ success := false, isUnique := false }, db)
  else
    let db1 : DB := { db with clicks := db.clicks ++
      [{ link_id := linkId, ip_address := ip, user_agent := ua,
         referrer := referrer, device_type := deviceType,
         browser := browser, is_unique := isUnique }] }
    if f.fetchFails then ({ success := false, isUnique := false }, db1)
    else
      match singleQuery (db1.links.filter (fun l => l.id == linkId)) with
      | none => ({ success := false, isUnique := false }, db1)
      | some currentLink =>
        let newTotalClicks := currentLink.total_clicks + 1
        let newUniqueClicks :=
          if isUnique then currentLink.unique_clicks + 1
          else currentLink.unique_clicks
        if f.updateFails then ({ success := false, isUnique := false }, db1)
        else ({ success := true, isUnique := isUnique },
          { db1 with
            links := updateLinkCounts db1.links linkId newTotalClicks
              newUniqueClicks })

/-- a one-link registry with no recorded clicks, the scenarios' start
state. -/
def db0 : DB :=
  { links := [{ id := 1, user_id := 7, original_url := "https://example.com",
                short_code := "abc123",
                short_url := "http://localhost:3000/abc123",
                total_clicks := 0, unique_clicks := 0, is_active := true,
                created_at := "2024-01-01" }],
    clicks := [] }

def uaDesktop : String := "Mozilla/5.0 (X11; Linux x86_64)"

/-- first click from address `9.9.9.9`. -/
def click1 : TrackResult × DB := trackClick noFaults db0 1 "9.9.9.9" uaDesktop none

/-- second click, same link, same address. -/
def click2 : TrackResult × DB :=
  trackClick noFaults click1.2 1 "9.9.9.9" uaDesktop none

/-- third click, same link, same address. -/
def click3 : TrackResult × DB :=
  trackClick noFaults click2.2 1 "9.9.9.9" uaDesktop none

/-- **C7.** Two sequential `trackClick` calls from one address behave as the
spec's scenario says — `isUnique = true` then `false`, counters ending at
`total_clicks = 2`, `unique_clicks = 1` — but the claim's general rule
("unique exactly when no prior ClickEvent for that link carries the same
address") is broken by the code on the very next click: the prior-click
probe uses a `.single()` query, whose data is `null` when *two* rows
already match, so the third click from the same address is flagged unique
again and `unique_clicks` rises to 2 despite two prior events from that
address. -/
theorem c7_trackClick_unique_flag_bug :
    click1.1 = { success := true, isUnique := true } ∧
    click2.1 = { success := true, isUnique := false } ∧
    (click2.2.links.map (fun l => (l.total_clicks, l.unique_clicks))) =
      [(2, 1)] ∧
    (click2.2.clicks.filter
      (fun c => c.link_id == 1 && c.ip_address == "9.9.9.9")).length = 2 ∧
    click3.1 = { success := true, isUnique := true } ∧
    (click3.2.links.map (fun l => (l.total_clicks, l.unique_clicks))) =
      [(3, 2)] := by
  refine ⟨by decide, by decide, by decide, by decide, by decide, by decide⟩

/-! ## Concurrent clicks: `trackClick` as an interleavable process (C2)

Each `await`ed store operation of `trackClick` is one atomic step against
the shared database; between steps another request may run.  The steps, in
source order: (0) prior-click query, (1) click insert, (2) counter fetch,
(3) counter update. -/

structure ClickProc where
  pc : Nat
  isUnique : Bool
  curTotal : Nat
  curUnique : Nat
deriving DecidableEq, Repr

def initProc : ClickProc :=
  { pc := 0, isUnique := false, curTotal := 0, curUnique := 0 }

/-- one atomic store operation of a running `trackClick linkId ip ua`. -/
def clickStep (db : DB) (p : ClickProc) (linkId : Nat) (ip ua : String) :
    DB × ClickProc :=
  match p.pc with
  | 0 =>
    let existingClick := singleQuery (db.clicks.filter
      (fun c => c.link_id == linkId && c.ip_address == ip))
    (db, { p with pc := 1, isUnique := existingClick.isNone })
  | 1 =>
    ({ db with clicks := db.clicks ++
      [{ link_id := linkId, ip_address := ip, user_agent := ua,
         referrer := none, device_type := parseDeviceType ua,
         browser := parseBrowser ua, is_unique := p.isUnique }] },
     { p with pc := 2 })
  | 2 =>
    match singleQuery (db.links.filter (fun l => l.id == linkId)) with
    | some currentLink =>
      (db,
       { p with
           pc := 3
           curTotal := currentLink.total_clicks
           curUnique := currentLink.unique_clicks })
    | none => (db, { p with pc := 4 })
  | 3 =>
    let newTotal := p.curTotal + 1
    let newUnique := if p.isUnique then p.curUnique + 1 else p.curUnique
    ({ db with links := updateLinkCounts db.links linkId newTotal newUnique },
     { p with pc := 4 })
  | _ => (db, p)

/-- run two concurrent `trackClick` calls on link `linkId` (addresses
`ipA`, `ipB`) under a schedule: `true` steps the first request, `false`
the second. -/
def run2 (linkId : Nat) (ipA ipB ua : String) :
    List Bool → DB × ClickProc × ClickProc → DB × ClickProc × ClickProc
  | [], s => s
  | pick :: rest, (db, a, b) =>
    if pick then
      let r := clickStep db a linkId ipA ua
      run2 linkId ipA ipB ua rest (r.1, r.2, b)
    else
      let r := clickStep db b linkId ipB ua
      run2 linkId ipA ipB ua rest (r.1, a, r.2)

/-- the lost-update schedule: both requests read the counters before
either writes them back. -/
def raceSchedule : List Bool :=
  [true, true, true, false, false, false, true, false]

def raceResult : DB × ClickProc × ClickProc :=
  run2 1 "1.1.1.1" "2.2.2.2" uaDesktop raceSchedule (db0, initProc, initProc)

/-- **C2.** The spec claims N concurrent `recordClick` calls leave
`total_clicks = N` regardless of interleaving, because the increment is a
relative atomic add.  The source's increment is a read-current-then-
overwrite: under the interleaving in which both requests fetch the counters
before either writes, both complete (pc = 4), both click rows are appended,
yet `total_clicks` ends at 1, not 2 — one update is lost.  Sequential
execution of the same two requests does yield 2, isolating the loss to the
interleaving. -/
theorem c2_lost_update_interleaving :
    raceResult.2.1.pc = 4 ∧ raceResult.2.2.pc = 4 ∧
    raceResult.1.clicks.length = 2 ∧
    (raceResult.1.links.map (fun l => l.total_clicks)) = [1] ∧
    ((trackClick noFaults
        (trackClick noFaults db0 1 "1.1.1.1" uaDesktop none).2
        1 "2.2.2.2" uaDesktop none).2.links.map
      (fun l => l.total_clicks)) = [2] := by
  refine ⟨by decide, by decide, by decide, by decide, by decide⟩

/-! ## Web server: `WebServer.setupRoutes` -/

/-- `LinkService.getLinkByShortCode`: `.single()` lookup filtered to
`is_active = true`; a `PGRST116` miss yields `null`. -/
def getLinkByShortCode (db : DB) (shortCode : String) : Option LinkRow :=
  singleQuery (db.links.filter
    (fun l => l.short_code == shortCode && l.is_active == true))

structure HttpResponse where
  status : Nat
  headers : List (String × String)
  body : String
deriving DecidableEq, Repr

/-- the redirect route's 404 page (human-readable body naming the code). -/
def notFoundBody (shortCode : String) : String :=
  "<html> <head><title>Link Not Found</title></head> " ++
  "<body style=\"font-family: Arial, sans-serif; text-align: center; padding: 50px;\"> " ++
  "<h1>🔍 Link Not Found</h1> " ++
  "<p>The short link \"" ++ shortCode ++
  "\" doesn\x27t exist or has expired.</p> " ++
  "<a href=\"https://wa.me/YOUR_BOT_NUMBER\" style=\"color: #25D366;\">Create a short link with our WhatsApp bot</a> " ++
  "<hr> <p><small>Debug: Searched for \"" ++ shortCode ++
  "\"</small></p> </body> </html>"

/-- JS `String.prototype.trim`: strip whitespace from both ends. -/
def jsTrim (s : String) : String :=
  String.mk
    (((s.data.dropWhile Char.isWhitespace).reverse.dropWhile
      Char.isWhitespace).reverse)

/-- the regex test `redirectUrl.match(/^https?:\/\//i)`. -/
def hasHttpScheme (u : String) : Bool :=
  leadsWith "http://".data (toLowerStr u).data ||
  leadsWith "https://".data (toLowerStr u).data

/-- trim the stored URL and prepend `https://` when no scheme matched. -/
def normalizeRedirectUrl (u : String) : String :=
  let t := jsTrim u
  if hasHttpScheme t then t else "https://" ++ t

def cacheControlValue : String := "no-cache, no-store, must-revalidate"

/-- the response of `GET /:shortCode` — `parseOk` stands for Node's
`new URL(...)` succeeding on its argument.  Route logic in source order:
404 page on an inactive or unknown code; 500 on a row with an empty
original URL; normalize the URL; 400 if it still does not parse; else a
302 with `Location` and cache-disabling headers.  (Click tracking happens
before the redirect and does not shape the response; `handleRedirect`
below threads it.) -/
def redirectResponse (parseOk : String → Bool) (db : DB)
    (shortCode : String) : HttpResponse :=
  match getLinkByShortCode db shortCode with
  | none => { status := 404, headers := [], body := notFoundBody shortCode }
  | some link =>
    if link.original_url == "" then
      { status := 500, headers := [], body := "Invalid link data" }
    else
      let redirectUrl := normalizeRedirectUrl link.original_url
      if parseOk redirectUrl then
        { status := 302,
          headers := [("Location", redirectUrl),
                      ("Cache-Control", cacheControlValue),
                      ("Pragma", "no-cache"), ("Expires", "0")],
          body := "" }
      else
        { status := 400, headers := [],
          body := "Invalid URL format in database" }

/-- `GET /:shortCode` with the click-tracking step included: the tracking
call (with whatever store faults occur) is awaited inside its own
`try/catch` before the response is sent. -/
def handleRedirect (f : StoreFaults) (parseOk : String → Bool) (db : DB)
    (shortCode ip ua : String) (referrer : Option String) :
    HttpResponse × DB :=
  match getLinkByShortCode db shortCode with
  | none =>
    ({ status := 404, headers := [], body := notFoundBody shortCode }, db)
  | some link =>
    if link.original_url == "" then
      ({ status := 500, headers := [], body := "Invalid link data" }, db)
    else
      let redirectUrl := normalizeRedirectUrl link.original_url
      if parseOk redirectUrl then
        let tracked := trackClick f db link.id ip ua referrer
        ({ status := 302,
           headers := [("Location", redirectUrl),
                       ("Cache-Control", cacheControlValue),
                       ("Pragma", "no-cache"), ("Expires", "0")],
           body := "" }, tracked.2)
      else
        ({ status := 400, headers := [],
           body := "Invalid URL format in database" }, db)

theorem singleQuery_mem {α : Type} : ∀ (l : List α) {r : α},
    singleQuery l = some r → r ∈ l
  | [], _, h => Option.noConfusion h
  | [x], r, h => by
    have hx : x = r := Option.some.inj h
    subst hx
    exact List.mem_singleton_self x
  | _ :: _ :: _, _, h => Option.noConfusion h

/-- **C8.** The redirect route:
(a) `getLinkByShortCode` only ever returns rows whose active flag is set
and whose code matches;
(b) when no active link matches, the response is a 404 whose body is the
human-readable not-found page;
(c) when an active link with a nonempty stored URL is found and the
normalized URL parses, the response is a 302 whose `Location` is that URL
and which carries `Cache-Control: no-cache, no-store, must-revalidate`;
(d) `https://` is prepended exactly when the trimmed stored URL lacks an
`http(s)://` scheme;
(e) when the normalized URL still fails to parse, the response is a 400. -/
theorem c8_redirect_route_responses (parseOk : String → Bool) (db : DB)
    (shortCode : String) (link : LinkRow) (u : String) :
    (getLinkByShortCode db shortCode = some link →
      link.is_active = true ∧ link.short_code = shortCode) ∧
    (getLinkByShortCode db shortCode = none →
      redirectResponse parseOk db shortCode =
        { status := 404, headers := [], body := notFoundBody shortCode }) ∧
    (getLinkByShortCode db shortCode = some link →
      link.original_url ≠ "" →
      parseOk (normalizeRedirectUrl link.original_url) = true →
      redirectResponse parseOk db shortCode =
        { status := 302,
          headers := [("Location", normalizeRedirectUrl link.original_url),
                      ("Cache-Control", cacheControlValue),
                      ("Pragma", "no-cache"), ("Expires", "0")],
          body := "" }) ∧
    (hasHttpScheme (jsTrim u) = false →
      normalizeRedirectUrl u = "https://" ++ jsTrim u) ∧
    (hasHttpScheme (jsTrim u) = true → normalizeRedirectUrl u = jsTrim u) ∧
    (getLinkByShortCode db shortCode = some link →
      link.original_url ≠ "" →
      parseOk (normalizeRedirectUrl link.original_url) = false →
      (redirectResponse parseOk db shortCode).status = 400) := by
  refine ⟨?_, ?_, ?_, ?_, ?_, ?_⟩
  · intro h
    have := List.mem_filter.mp (singleQuery_mem _ h)
    have h2 := this.2
    simp only [Bool.and_eq_true, beq_iff_eq] at h2
    exact ⟨h2.2, h2.1⟩
  · intro h
    simp [redirectResponse, h]
  · intro h hne hp
    have hne' : (link.original_url == "") = false := by simpa using hne
    simp [redirectResponse, h, hne', hp]
  · intro h
    simp [normalizeRedirectUrl, h]
  · intro h
    simp [normalizeRedirectUrl, h]
  · intro h hne hp
    have hne' : (link.original_url == "") = false := by simpa using hne
    simp [redirectResponse, h, hne', hp]

/-- closed witness for `c8_redirect_route_responses`: a registry holding
one active link with stored URL `example.com/path` (no scheme). -/
theorem c8_redirect_route_responses_witness :
    redirectResponse (fun _ => true)
        { links := [{ id := 1, user_id := 7,
                      original_url := "example.com/path",
                      short_code := "abc123",
                      short_url := "http://localhost:3000/abc123",
                      total_clicks := 0, unique_clicks := 0,
                      is_active := true, created_at := "2024-01-01" }],
          clicks := [] } "abc123" =
      { status := 302,
        headers := [("Location", "https://example.com/path"),
                    ("Cache-Control", cacheControlValue),
                    ("Pragma", "no-cache"), ("Expires", "0")],
        body := "" } ∧
    (redirectResponse (fun _ => true) { links := [], clicks := [] }
      "zzz").status = 404 := by
  constructor
  · have h := c8_redirect_route_responses (fun _ => true)
      { links := [{ id := 1, user_id := 7,
                    original_url := "example.com/path",
                    short_code := "abc123",
                    short_url := "http://localhost:3000/abc123",
                    total_clicks := 0, unique_clicks := 0,
                    is_active := true, created_at := "2024-01-01" }],
        clicks := [] } "abc123"
      { id := 1, user_id := 7, original_url := "example.com/path",
        short_code := "abc123", short_url := "http://localhost:3000/abc123",
        total_clicks := 0, unique_clicks := 0, is_active := true,
        created_at := "2024-01-01" } "example.com/path"
    have h302 := h.2.2.1 (by decide) (by decide) (by decide)
    have hnorm := h.2.2.2.1 (by decide)
    rw [h302]
    simp only [hnorm]
    decide
  · have h := c8_redirect_route_responses (fun _ => true)
      { links := [], clicks := [] } "zzz"
      { id := 0, user_id := 0, original_url := "", short_code := "",
        short_url := "", total_clicks := 0, unique_clicks := 0,
        is_active := false, created_at := "" } ""
    rw [h.2.1 (by decide)]

/-- **C9.** Click tracking is best-effort telemetry:
(a) whenever any of `trackClick`'s store writes fails (click insert,
counter fetch, counter update), the call returns
`{ success := false, isUnique := false }` — the error is swallowed, never
thrown (the embedding of `trackClick` is a total function);
(b) the redirect handler's response is the response computed from the link
alone, for every fault pattern — the 302 completes regardless of the
tracking outcome. -/
theorem c9_trackClick_swallows_failures (f : StoreFaults) (db : DB)
    (linkId : Nat) (ip ua : String) (referrer : Option String)
    (parseOk : String → Bool) (shortCode : String)
    (hf : (f.insertFails || f.fetchFails || f.updateFails) = true) :
    (trackClick f db linkId ip ua referrer).1 =
      { success := false, isUnique := false } ∧
    (∀ (g : StoreFaults),
      (handleRedirect g parseOk db shortCode ip ua referrer).1 =
        redirectResponse parseOk db shortCode) := by
  constructor
  · cases hi : f.insertFails with
    | true => simp [trackClick, hi]
    | false =>
      cases hfe : f.fetchFails with
      | true => simp [trackClick, hi, hfe]
      | false =>
        cases hu : f.updateFails with
        | false => simp [hi, hfe, hu] at hf
        | true =>
          simp only [trackClick, hi, hfe, hu, Bool.false_eq_true, if_neg,
            not_false_eq_true, if_true, if_false]
          split <;> rfl
  · intro g
    cases hlook : getLinkByShortCode db shortCode with
    | none => simp [handleRedirect, redirectResponse, hlook]
    | some link =>
      cases hu : (link.original_url == "") with
      | true => simp [handleRedirect, redirectResponse, hlook, hu]
      | false =>
        cases hp : parseOk (normalizeRedirectUrl link.original_url) with
        | true => simp [handleRedirect, redirectResponse, hlook, hu, hp]
        | false => simp [handleRedirect, redirectResponse, hlook, hu, hp]

/-- a fault pattern in which only the counter update fails. -/
def updateFault : StoreFaults :=
  { insertFails := false, fetchFails := false, updateFails := true }

/-- closed witness for `c9_trackClick_swallows_failures`: the counter
update failing on a real click still yields the swallowed result, and the
redirect handler under that fault still sends the 302. -/
theorem c9_trackClick_swallows_failures_witness :
    (trackClick updateFault db0 1 "9.9.9.9" uaDesktop none).1 =
      { success := false, isUnique := false } ∧
    (handleRedirect updateFault (fun _ => true) db0 "abc123" "9.9.9.9"
        uaDesktop none).1.status = 302 := by
  have h := c9_trackClick_swallows_failures updateFault
    db0 1 "9.9.9.9" uaDesktop none (fun _ => true) "abc123" (by decide)
  refine ⟨h.1, ?_⟩
  rw [h.2 updateFault]
  decide

/-! ## Stats and preview responses (C10) -/

/-- the joined result of `LinkService.getLinkStats`: the stored link row
spread with the computed aggregates. -/
structure StatsResult where
  link : LinkRow
  todayClicks : Nat
  deviceBreakdown : List (String × Nat)
  browserBreakdown : List (String × Nat)
deriving DecidableEq, Repr

/-- the eight fields of the `publicStats` object built by
`GET /api/stats/:shortCode`. -/
structure PublicStats where
  shortCode : String
  shortUrl : String
  totalClicks : Nat
  uniqueClicks : Nat
  todayClicks : Nat
  createdAt : String
  deviceBreakdown : List (String × Nat)
  browserBreakdown : List (String × Nat)
deriving DecidableEq, Repr

/-- the `publicStats` projection of the stats route ("Don't expose
sensitive data"). -/
def publicStats (stats : StatsResult) : PublicStats :=
  { shortCode := stats.link.short_code,
    shortUrl := stats.link.short_url,
    totalClicks := stats.link.total_clicks,
    uniqueClicks := stats.link.unique_clicks,
    todayClicks := stats.todayClicks,
    createdAt := stats.link.created_at,
    deviceBreakdown := stats.deviceBreakdown,
    browserBreakdown := stats.browserBreakdown }

inductive StatsResponse where
  | notFound
  | found (body : PublicStats)
deriving DecidableEq, Repr

/-- `GET /api/stats/:shortCode`: 404 JSON `Link not found` when the stats
lookup misses, else the public stats JSON. -/
def statsEndpoint : Option StatsResult → StatsResponse
  | none => .notFound
  | some stats => .found (publicStats stats)

/-- everything the preview page renders before the link id of its
`Debug Info` section. -/
def previewFront (fmtDate : String → String) (shortCode : String)
    (link : LinkRow) : String :=
  "<html> <head> <title>Link Preview</title> <style> " ++
  "body \x7b font-family: Arial, sans-serif; max-width: 800px; margin: 50px auto; padding: 20px; \x7d " ++
  ".card \x7b border: 1px solid #ddd; border-radius: 8px; padding: 20px; background: #f9f9f9; \x7d " ++
  ".stats \x7b display: flex; gap: 20px; margin: 20px 0; \x7d " ++
  ".stat \x7b text-align: center; \x7d " ++
  ".continue-btn \x7b background: #25D366; color: white; padding: 10px 20px; text-decoration: none; border-radius: 5px; \x7d " ++
  ".original-url \x7b word-break: break-all; color: #666; \x7d " ++
  ".debug \x7b background: #f0f0f0; padding: 10px; font-size: 12px; margin-top: 20px; \x7d " ++
  "</style> </head> <body> <div class=\"card\"> <h1>🔗 Link Preview</h1> " ++
  "<p><strong>Short URL:</strong> " ++ link.short_url ++ "</p> " ++
  "<p><strong>Original URL:</strong> <span class=\"original-url\">" ++
  link.original_url ++ "</span></p> " ++
  "<div class=\"stats\"> <div class=\"stat\"> <h3>" ++
  toString link.total_clicks ++ "</h3> <p>Total Clicks</p> </div> " ++
  "<div class=\"stat\"> <h3>" ++ toString link.unique_clicks ++
  "</h3> <p>Unique Clicks</p> </div> </div> " ++
  "<p> <a href=\"/" ++ shortCode ++
  "\" class=\"continue-btn\">Continue to Original Link</a> </p> " ++
  "<p><small>Created: " ++ fmtDate link.created_at ++ "</small></p> " ++
  "<div class=\"debug\"> <strong>Debug Info:</strong><br> " ++
  "Short Code: " ++ shortCode ++ "<br> " ++ "Link ID: "

/-- the tail of the preview page after the interpolated link id. -/
def previewBack (link : LinkRow) : String :=
  "<br> Has Original URL: " ++
  (if link.original_url == "" then "false" else "true") ++
  " </div> </div> </body> </html>"

/-- `GET /preview/:shortCode`'s page for a found link (`fmtDate` stands
for `new Date(...).toLocaleDateString()`): the public fields plus a
`Debug Info` section interpolating `link.id`. -/
def previewPage (fmtDate : String → String) (shortCode : String)
    (link : LinkRow) : String :=
  previewFront fmtDate shortCode link ++
    (toString link.id ++ previewBack link)

/-- the redirect route's catch-all 500 page, which interpolates the caught
error's `message` into the body sent to the client. -/
def errorPage (message : String) : String :=
  "<html> <head><title>Server Error</title></head> " ++
  "<body style=\"font-family: Arial, sans-serif; text-align: center; padding: 50px;\"> " ++
  "<h1>❌ Server Error</h1> " ++
  "<p>Something went wrong while processing your request.</p> " ++
  "<p><small>Error: " ++
  (message ++ "</small></p> </body> </html>")

theorem leadsWith_append (p r : List Char) : leadsWith p (p ++ r) = true := by
  induction p with
  | nil => rfl
  | cons c cs ih => simp [leadsWith, ih]

theorem subSearch_parts (xs p r : List Char) :
    subSearch p (xs ++ (p ++ r)) = true := by
  induction xs with
  | nil =>
    rw [List.nil_append]
    cases hp : p ++ r with
    | nil =>
      have hpnil : p = [] := (List.append_eq_nil.mp hp).1
      subst hpnil
      rfl
    | cons h t =>
      simp only [subSearch]
      rw [← hp, leadsWith_append]
      simp
  | cons x xs ih =>
    rw [List.cons_append]
    simp only [subSearch, ih, Bool.or_true]

/-- a string built as `a ++ (b ++ c)` contains `b`. -/
theorem strContains_of_parts (a b c : String) :
    strContains (a ++ (b ++ c)) b = true := by
  show subSearch b.data (a.data ++ (b.data ++ c.data)) = true
  exact subSearch_parts a.data b.data c.data

/-- the concrete link rendered in the counterexample's preview. -/
def previewLink : LinkRow :=
  { id := 77777, user_id := 3, original_url := "https://example.com",
    short_code := "abc123", short_url := "http://localhost:3000/abc123",
    total_clicks := 5, unique_clicks := 4, is_active := true,
    created_at := "2024-05-05" }

/-- **C10 (counterexample).** The claim says responses served for a short
code never expose internal identifiers.  The preview page rendered for the
concrete link with internal id 77777 contains the string `77777`: its
`Debug Info` section interpolates `link.id` straight into the HTML sent to
the client, so the claim as stated is false. -/
theorem c10_preview_exposes_link_id :
    strContains (previewPage (fun s => s) "abc123" previewLink)
      (toString previewLink.id) = true :=
  strContains_of_parts (previewFront (fun s => s) "abc123" previewLink)
    (toString previewLink.id) (previewBack previewLink)

/-- a link row with every internal (non-public) field overwritten. -/
def scrubLink (l : LinkRow) (i u : Nat) (o : String) (a : Bool) : LinkRow :=
  { l with id := i, user_id := u, original_url := o, is_active := a }

/-- **C10 (amended).** The stats JSON of `GET /api/stats/{code}` contains
only the eight public fields — it is unchanged under any change of the
link's internal `id`, `user_id`, stored URL or active flag, and the stats
route answers `notFound` or exactly that projection — but the preview page
exposes the link's internal id in its `Debug Info` section for every link,
and the redirect route's 500 page embeds the caught error's message, so
internal error text can reach the client. -/
theorem c10_public_stats_only_public_fields (s : StatsResult) (i u : Nat)
    (o : String) (a : Bool) (fmtDate : String → String)
    (code : String) (l : LinkRow) (msg : String) :
    publicStats { s with link := scrubLink s.link i u o a } = publicStats s ∧
    statsEndpoint (some s) = .found (publicStats s) ∧
    statsEndpoint none = .notFound ∧
    strContains (previewPage fmtDate code l) (toString l.id) = true ∧
    strContains (errorPage msg) msg = true := by
  refine ⟨rfl, rfl, rfl, ?_, ?_⟩
  · exact strContains_of_parts (previewFront fmtDate code l)
      (toString l.id) (previewBack l)
  · exact strContains_of_parts _ msg "</small></p> </body> </html>"

end Wey
